import Mathlib

/-
Shallow embedding of noxfile.py (the build/test task-runner configuration
of the python-bigtable repository).

Each nox session body is straight-line Python whose only branching depends
on the ambient environment (os.environ, os.path.exists), never on the
results of the external commands it launches.  We therefore model a
session as a function from an environment to the list of steps its body
performs, in source order, and give a separate executor that runs the
steps: session.skip raises and ends the session with a skipped outcome,
and an external command whose exit status is non-zero raises and ends the
session with a failed outcome, exactly as the nox runner behaves for a
noxfile that has no exception handling of its own.
-/

namespace Noxfile

/-- External actions a session body can perform: session.install (a pip
invocation), session.run (an external command), and shutil.rmtree called
with ignore_errors set to True. -/
inductive Action where
  | install (args : List String)
  | run (args : List String)
  | rmtree (path : String)
deriving DecidableEq, Repr

/-- A step of a session body: perform an external action, or session.skip
with a message (which raises, ending the session as skipped). -/
inductive Step where
  | act (a : Action)
  | skip (msg : String)
deriving DecidableEq, Repr

/-- The ambient environment a session runs in: the process environment
(os.environ), the filesystem existence oracle (os.path.exists), the exit
status each external command would return, and the extra positional
arguments passed through by the runner (session.posargs). -/
structure Env where
  environ : String → Option String
  pathExists : String → Bool
  exitCode : Action → Nat
  posargs : List String

/-- os.environ.get(key, dflt): the value of the variable when set, the
default otherwise. -/
def environGet (env : Env) (key dflt : String) : String :=
  (env.environ key).getD dflt

/-- os.path.join on relative POSIX segments: join with a slash.  A final
empty segment yields a trailing slash, as in the source. -/
def osPathJoin (parts : List String) : String :=
  String.intercalate "/" parts

def DEFAULT_PYTHON_VERSION : String := "3.8"

def SYSTEM_TEST_PYTHON_VERSIONS : List String := ["2.7", "3.8"]

def UNIT_TEST_PYTHON_VERSIONS : List String := ["2.7", "3.5", "3.6", "3.7", "3.8"]

def LOCAL_DEPS : List String := []

/-- Session lint: install flake8, black and LOCAL_DEPS, run black in
check mode, then run flake8. -/
def lint (_env : Env) : List Step :=
  [Step.act (Action.install (["flake8", "black"] ++ LOCAL_DEPS)),
   Step.act (Action.run ["black", "--check", "google", "tests", "docs"]),
   Step.act (Action.run ["flake8", "google", "tests"])]

/-- Session blacken: install black, run black to format. -/
def blacken (_env : Env) : List Step :=
  [Step.act (Action.install ["black"]),
   Step.act (Action.run ["black", "google", "tests", "docs"])]

/-- Session lint_setup_py: install docutils and pygments, check setup.py. -/
def lint_setup_py (_env : Env) : List Step :=
  [Step.act (Action.install ["docutils", "pygments"]),
   Step.act (Action.run ["python", "setup.py", "check", "--restructuredtext", "--strict"])]

/-- Helper default(session): install test dependencies and the package,
then run py.test against the unit tests.  Not itself registered as a
session (it has no nox.session decorator). -/
def default (env : Env) : List Step :=
  [Step.act (Action.install ["mock", "pytest", "pytest-cov"])] ++
  LOCAL_DEPS.map (fun local_dep => Step.act (Action.install ["-e", local_dep])) ++
  [Step.act (Action.install ["-e", "."]),
   Step.act (Action.run
     (["py.test", "--quiet", "--cov=google.cloud", "--cov=tests.unit",
       "--cov-append", "--cov-config=.coveragerc", "--cov-report=",
       "--cov-fail-under=0", osPathJoin ["tests", "unit"]] ++ env.posargs))]

/-- Session unit: delegates to default(session). -/
def unit (env : Env) : List Step :=
  Noxfile.default env

/-- Session cover: install coverage tools, report, then erase. -/
def cover (_env : Env) : List Step :=
  [Step.act (Action.install ["coverage", "pytest-cov"]),
   Step.act (Action.run ["coverage", "report", "--show-missing", "--fail-under=99"]),
   Step.act (Action.run ["coverage", "erase"])]

/-- Session system: skip unless the credentials variable is set to a
non-empty value; skip unless the system test file or folder exists;
install dependencies; run py.test on the file and on the folder, each
only when it exists.  The existence checks are pure reads of the
environment, so hoisting them above the credential guard (which the list
concatenation requires) does not change the steps performed. -/
def system (env : Env) : List Step :=
  let system_test_path := osPathJoin ["tests", "system.py"]
  let system_test_folder_path := osPathJoin ["tests", "system"]
  let system_test_exists := env.pathExists system_test_path
  let system_test_folder_exists := env.pathExists system_test_folder_path
  (if environGet env "GOOGLE_APPLICATION_CREDENTIALS" "" = "" then
    [Step.skip "Credentials must be set via environment variable"]
   else []) ++
  (if !system_test_exists && !system_test_folder_exists then
    [Step.skip "System tests were not found"]
   else []) ++
  [Step.act (Action.install ["--pre", "grpcio"]),
   Step.act (Action.install ["mock", "pytest"])] ++
  LOCAL_DEPS.map (fun local_dep => Step.act (Action.install ["-e", local_dep])) ++
  [Step.act (Action.install ["-e", "test_utils/"]),
   Step.act (Action.install ["-e", "."])] ++
  (if system_test_exists then
    [Step.act (Action.run (["py.test", "--quiet", system_test_path] ++ env.posargs))]
   else []) ++
  (if system_test_folder_exists then
    [Step.act (Action.run (["py.test", "--quiet", system_test_folder_path] ++ env.posargs))]
   else [])

/-- Session snippets: skip unless the credentials variable is set to a
non-empty value; install dependencies; run py.test on docs/snippets.py
and then on docs/snippets_table.py, with no existence check on either. -/
def snippets (env : Env) : List Step :=
  (if environGet env "GOOGLE_APPLICATION_CREDENTIALS" "" = "" then
    [Step.skip "Credentials must be set via environment variable."]
   else []) ++
  [Step.act (Action.install ["mock", "pytest"])] ++
  LOCAL_DEPS.map (fun local_dep => Step.act (Action.install ["-e", local_dep])) ++
  [Step.act (Action.install ["-e", "test_utils/"]),
   Step.act (Action.install ["-e", "."]),
   Step.act (Action.run (["py.test", "--quiet", osPathJoin ["docs", "snippets.py"]] ++ env.posargs)),
   Step.act (Action.run (["py.test", "--quiet", osPathJoin ["docs", "snippets_table.py"]] ++ env.posargs))]

/-- Session docs: install the package and sphinx, remove the docs/_build
tree (errors ignored), then run sphinx-build. -/
def docs (_env : Env) : List Step :=
  [Step.act (Action.install ["-e", "."]),
   Step.act (Action.install ["sphinx", "alabaster", "recommonmark"]),
   Step.act (Action.rmtree (osPathJoin ["docs", "_build"])),
   Step.act (Action.run
     ["sphinx-build", "-W", "-T", "-N", "-b", "html",
      "-d", osPathJoin ["docs", "_build", "doctrees", ""],
      osPathJoin ["docs", ""],
      osPathJoin ["docs", "_build", "html", ""]])]

/-- Session docfx: install the package and sphinx with the docfx
extension, remove the docs/_build tree (errors ignored), then run
sphinx-build with the docfx extension list. -/
def docfx (_env : Env) : List Step :=
  [Step.act (Action.install ["-e", "."]),
   Step.act (Action.install ["sphinx", "alabaster", "recommonmark", "sphinx-docfx-yaml"]),
   Step.act (Action.rmtree (osPathJoin ["docs", "_build"])),
   Step.act (Action.run
     ["sphinx-build", "-T", "-N", "-D",
      "extensions=sphinx.ext.autodoc," ++
      "sphinx.ext.autosummary," ++
      "docfx_yaml.extension," ++
      "sphinx.ext.intersphinx," ++
      "sphinx.ext.coverage," ++
      "sphinx.ext.napoleon," ++
      "sphinx.ext.todo," ++
      "sphinx.ext.viewcode," ++
      "recommonmark",
      "-b", "html",
      "-d", osPathJoin ["docs", "_build", "doctrees", ""],
      osPathJoin ["docs", ""],
      osPathJoin ["docs", "_build", "html", ""]])]

/-- A registered session: its name, the python argument of its
nox.session decorator (a single version is a one-element list), and its
body. -/
structure Session where
  name : String
  python : List String
  plan : Env → List Step

/-- The sessions registered by a nox.session decorator, in file order.
The helper default has no decorator and is not here. -/
def sessions : List Session :=
  [{ name := "lint", python := [DEFAULT_PYTHON_VERSION], plan := lint },
   { name := "blacken", python := ["3.6"], plan := blacken },
   { name := "lint_setup_py", python := [DEFAULT_PYTHON_VERSION], plan := lint_setup_py },
   { name := "unit", python := UNIT_TEST_PYTHON_VERSIONS, plan := unit },
   { name := "cover", python := [DEFAULT_PYTHON_VERSION], plan := cover },
   { name := "system", python := SYSTEM_TEST_PYTHON_VERSIONS, plan := system },
   { name := "snippets", python := SYSTEM_TEST_PYTHON_VERSIONS, plan := snippets },
   { name := "docs", python := [DEFAULT_PYTHON_VERSION], plan := docs },
   { name := "docfx", python := [DEFAULT_PYTHON_VERSION], plan := docfx }]

/-- Whether performing an action raises: session.install and session.run
raise when the command exits non-zero; shutil.rmtree with ignore_errors
set to True never raises. -/
def actFails (env : Env) : Action → Bool
  | Action.install args => env.exitCode (Action.install args) != 0
  | Action.run args => env.exitCode (Action.run args) != 0
  | Action.rmtree _ => false

/-- How a session ends: it ran to completion, it was skipped by
session.skip, or an external command failed. -/
inductive Outcome where
  | completed
  | skipped (msg : String)
  | failed (a : Action)
deriving DecidableEq, Repr

/-- Execute the steps of a session body in order.  Returns the outcome
and the trace of actions actually performed: a skip step ends the session
immediately (nothing after it runs), and a failing action ends the
session with a failed outcome (nothing after it runs, and it is the last
action of the trace). -/
def exec (env : Env) : List Step → Outcome × List Action
  | [] => (Outcome.completed, [])
  | Step.skip msg :: _ => (Outcome.skipped msg, [])
  | Step.act a :: rest =>
      if actFails env a then (Outcome.failed a, [a])
      else
        let r := exec env rest
        (r.1, a :: r.2)

/-- The argument lists of the session.run steps of a body, in order. -/
def runSteps (l : List Step) : List (List String) :=
  l.filterMap fun s =>
    match s with
    | Step.act (Action.run args) => some args
    | _ => none

/-- The paths of the shutil.rmtree steps of a body, in order. -/
def rmtreePaths (l : List Step) : List String :=
  l.filterMap fun s =>
    match s with
    | Step.act (Action.rmtree p) => some p
    | _ => none

/-- Whether a step is a session.install call. -/
def isInstallStep : Step → Bool
  | Step.act (Action.install _) => true
  | _ => false

/-- Whether a step is a session.run call. -/
def isRunStep : Step → Bool
  | Step.act (Action.run _) => true
  | _ => false

/-- Every session.install step of the body occurs before every
session.run step: once a run step is reached, no install step follows. -/
def installsBeforeRuns : List Step → Bool
  | [] => true
  | s :: rest =>
      if isRunStep s then rest.all (fun t => !isInstallStep t)
      else installsBeforeRuns rest

/-- The actions of a body, skip steps dropped. -/
def acts (l : List Step) : List Action :=
  l.filterMap fun s =>
    match s with
    | Step.act a => some a
    | _ => none

/-- The argument lists of the run actions of a trace, in order. -/
def runsOf (t : List Action) : List (List String) :=
  t.filterMap fun a =>
    match a with
    | Action.run args => some args
    | _ => none

/-- Concrete environment: no variables set, no files present, every
command succeeds. -/
def envUnset : Env :=
  { environ := fun _ => none,
    pathExists := fun _ => false,
    exitCode := fun _ => 0,
    posargs := [] }

/-- Concrete environment: the credentials variable is set to the empty
string, no files present, every command succeeds. -/
def envEmptyCreds : Env :=
  { environ := fun k => if k = "GOOGLE_APPLICATION_CREDENTIALS" then some "" else none,
    pathExists := fun _ => false,
    exitCode := fun _ => 0,
    posargs := [] }

/-- Concrete environment: the credentials variable is set to a non-empty
value but no files or directories exist; every command succeeds. -/
def envCredsOnly : Env :=
  { environ := fun k => if k = "GOOGLE_APPLICATION_CREDENTIALS" then some "creds.json" else none,
    pathExists := fun _ => false,
    exitCode := fun _ => 0,
    posargs := [] }

/-- Concrete environment: the credentials variable is set to a non-empty
value and every file and directory exists; every command succeeds. -/
def envAllFiles : Env :=
  { environ := fun k => if k = "GOOGLE_APPLICATION_CREDENTIALS" then some "creds.json" else none,
    pathExists := fun _ => true,
    exitCode := fun _ => 0,
    posargs := [] }

/-- Concrete environment in which the black check command exits with
status 1 and every other command succeeds. -/
def envBlackFails : Env :=
  { environ := fun _ => none,
    pathExists := fun _ => false,
    exitCode := fun a =>
      if a = Action.run ["black", "--check", "google", "tests", "docs"] then 1 else 0,
    posargs := [] }

/-- Helper: if an action of the executed trace fails, the session ends
with a failed outcome and that action is the last one performed. -/
theorem exec_failed_of_mem (env : Env) (l : List Step) (a : Action)
    (ha : a ∈ (exec env l).2) (hf : actFails env a = true) :
    (exec env l).1 = Outcome.failed a ∧ (exec env l).2.getLast? = some a := by
  induction l with
  | nil => simp [exec] at ha
  | cons s rest ih =>
    cases s with
    | skip msg => simp [exec] at ha
    | act b =>
      by_cases hb : actFails env b
      · simp [exec, hb] at ha ⊢
        subst ha
        simp
      · simp [exec, hb] at ha ⊢
        rcases ha with rfl | ha
        · rw [hf] at hb; exact absurd rfl hb
        · rcases ih ha with ⟨h1, h2⟩
          refine ⟨h1, ?_⟩
          cases ht : (exec env rest).2 with
          | nil => rw [ht] at h2; simp at h2
          | cons x xs => rw [ht] at h2; rw [List.getLast?_cons_cons]; exact h2

/-- Helper: execution never ends with a failure blamed on an rmtree
action, because rmtree is called with ignore_errors set to True. -/
theorem exec_ne_failed_rmtree (env : Env) (l : List Step) (p : String) :
    (exec env l).1 ≠ Outcome.failed (Action.rmtree p) := by
  induction l with
  | nil => simp [exec]
  | cons s rest ih =>
    cases s with
    | skip msg => simp [exec]
    | act b =>
      by_cases hb : actFails env b
      · simp [exec, hb]
        intro h
        rw [h] at hb
        simp [actFails] at hb
      · simp [exec, hb]
        exact ih

/-- Helper: a body with no skip step, all of whose actions succeed, runs
to completion and performs exactly its actions in order. -/
theorem exec_all_ok (env : Env) (l : List Step)
    (hs : ∀ msg, Step.skip msg ∉ l)
    (ha : ∀ a, Step.act a ∈ l → actFails env a = false) :
    exec env l = (Outcome.completed, acts l) := by
  induction l with
  | nil => simp [exec, acts]
  | cons s rest ih =>
    cases s with
    | skip msg => exact absurd (List.mem_cons_self _ _) (hs msg)
    | act b =>
      have hb : actFails env b = false := ha b (List.mem_cons_self _ _)
      rw [exec]
      simp [hb, acts]
      have := ih (fun msg hm => hs msg (List.mem_cons_of_mem _ hm))
        (fun a hm => ha a (List.mem_cons_of_mem _ hm))
      rw [this]
      simp [acts]

/-- Claim C1: in every run of the system session and of the snippets
session in which the GOOGLE_APPLICATION_CREDENTIALS variable is unset or
empty, the session ends with the skip outcome and performs no action at
all, so in particular py.test is never invoked and the session does not
fail. -/
theorem c1_credentials_guard_skips (env : Env)
    (h : environGet env "GOOGLE_APPLICATION_CREDENTIALS" "" = "") :
    exec env (system env) =
      (Outcome.skipped "Credentials must be set via environment variable", [])
    ∧ exec env (snippets env) =
      (Outcome.skipped "Credentials must be set via environment variable.", []) := by
  constructor
  · simp [system, h, exec]
  · simp [snippets, h, exec]

/-- Witness for C1 at a concrete environment with no variables set. -/
theorem c1_witness :
    environGet envUnset "GOOGLE_APPLICATION_CREDENTIALS" "" = ""
    ∧ (exec envUnset (system envUnset) =
        (Outcome.skipped "Credentials must be set via environment variable", [])
      ∧ exec envUnset (snippets envUnset) =
        (Outcome.skipped "Credentials must be set via environment variable.", [])) :=
  ⟨by decide, c1_credentials_guard_skips envUnset (by decide)⟩

/-- Claim C2, counterexample: in a concrete environment where the
credentials variable is set but neither docs/snippets.py nor
docs/snippets_table.py exists, the snippets session still invokes py.test
on both paths and completes, contradicting the claim that it executes
py.test on them only when those files exist. -/
theorem c2_counterexample :
    envCredsOnly.pathExists "docs/snippets.py" = false
    ∧ envCredsOnly.pathExists "docs/snippets_table.py" = false
    ∧ (exec envCredsOnly (snippets envCredsOnly)).1 = Outcome.completed
    ∧ Action.run ["py.test", "--quiet", "docs/snippets.py"]
        ∈ (exec envCredsOnly (snippets envCredsOnly)).2
    ∧ Action.run ["py.test", "--quiet", "docs/snippets_table.py"]
        ∈ (exec envCredsOnly (snippets envCredsOnly)).2 := by
  decide

/-- Claim C2 as amended: the snippets session contains no existence
check.  Whenever the credentials variable is set to a non-empty value and
the commands it launches succeed, it invokes py.test on docs/snippets.py
and then on docs/snippets_table.py unconditionally, whether or not those
files exist (no existence hypothesis appears below).  Only the system
session conditions its py.test invocations on file existence. -/
theorem c2_snippets_run_unconditionally (env : Env)
    (hc : environGet env "GOOGLE_APPLICATION_CREDENTIALS" "" ≠ "")
    (hall : ∀ a : Action, env.exitCode a = 0) :
    runsOf (exec env (snippets env)).2 =
      [["py.test", "--quiet", osPathJoin ["docs", "snippets.py"]] ++ env.posargs,
       ["py.test", "--quiet", osPathJoin ["docs", "snippets_table.py"]] ++ env.posargs] := by
  simp [snippets, exec, runsOf, actFails, hall, hc, LOCAL_DEPS]

/-- Witness for the amended C2 at a concrete environment where the
credentials variable is set but no file exists. -/
theorem c2_witness :
    envCredsOnly.pathExists (osPathJoin ["docs", "snippets.py"]) = false
    ∧ environGet envCredsOnly "GOOGLE_APPLICATION_CREDENTIALS" "" ≠ ""
    ∧ runsOf (exec envCredsOnly (snippets envCredsOnly)).2 =
        [["py.test", "--quiet", "docs/snippets.py"],
         ["py.test", "--quiet", "docs/snippets_table.py"]] :=
  ⟨by decide, by decide,
   c2_snippets_run_unconditionally envCredsOnly (by decide) (fun a => rfl)⟩

/-- Claim C3: with the credentials variable set, when neither the system
test file tests/system.py nor the folder tests/system exists, the system
session ends with the skip outcome and performs no action at all, so no
dependency installation and no py.test invocation occurs. -/
theorem c3_system_skip_when_tests_missing (env : Env)
    (hc : environGet env "GOOGLE_APPLICATION_CREDENTIALS" "" ≠ "")
    (hf : env.pathExists (osPathJoin ["tests", "system.py"]) = false)
    (hd : env.pathExists (osPathJoin ["tests", "system"]) = false) :
    exec env (system env) = (Outcome.skipped "System tests were not found", []) := by
  simp [system, hc, hf, hd, exec]

/-- Witness for C3 at a concrete environment with credentials set and no
files present. -/
theorem c3_witness :
    environGet envCredsOnly "GOOGLE_APPLICATION_CREDENTIALS" "" ≠ ""
    ∧ envCredsOnly.pathExists (osPathJoin ["tests", "system.py"]) = false
    ∧ exec envCredsOnly (system envCredsOnly) =
        (Outcome.skipped "System tests were not found", []) :=
  ⟨by decide, by decide,
   c3_system_skip_when_tests_missing envCredsOnly (by decide) (by decide) (by decide)⟩

/-- Claim C4: in every registered session and every environment, if a
session.run command that the session actually performed has a non-zero
exit status, the whole session ends with the failed outcome blamed on
that command, and that command is the last action performed: no session
catches, retries, or suppresses a command failure. -/
theorem c4_command_failure_fails_session :
    ∀ s ∈ sessions, ∀ (env : Env) (args : List String),
    Action.run args ∈ (exec env (s.plan env)).2 →
    env.exitCode (Action.run args) ≠ 0 →
    (exec env (s.plan env)).1 = Outcome.failed (Action.run args)
    ∧ (exec env (s.plan env)).2.getLast? = some (Action.run args) := by
  intro s _ env args hmem hexit
  have hf : actFails env (Action.run args) = true := by
    simp [actFails, hexit]
  exact exec_failed_of_mem env (s.plan env) _ hmem hf

/-- Witness for C4: in the lint session, when the black check command
exits with status 1, the session fails on it and performs nothing after
it. -/
theorem c4_witness :
    Action.run ["black", "--check", "google", "tests", "docs"]
      ∈ (exec envBlackFails (lint envBlackFails)).2
    ∧ envBlackFails.exitCode (Action.run ["black", "--check", "google", "tests", "docs"]) ≠ 0
    ∧ ((exec envBlackFails (lint envBlackFails)).1 =
        Outcome.failed (Action.run ["black", "--check", "google", "tests", "docs"])
      ∧ (exec envBlackFails (lint envBlackFails)).2.getLast? =
        some (Action.run ["black", "--check", "google", "tests", "docs"])) :=
  ⟨by decide, by decide,
   c4_command_failure_fails_session
     { name := "lint", python := [DEFAULT_PYTHON_VERSION], plan := lint }
     (by simp [sessions]) envBlackFails
     ["black", "--check", "google", "tests", "docs"] (by decide) (by decide)⟩

/-- Claim C5: in every registered session and every environment, every
session.install step of the session body occurs before every session.run
step, so each session installs its declared dependencies before invoking
its target tool. -/
theorem c5_installs_before_runs :
    ∀ s ∈ sessions, ∀ env : Env, installsBeforeRuns (s.plan env) = true := by
  intro s hs env
  simp [sessions] at hs
  rcases hs with rfl|rfl|rfl|rfl|rfl|rfl|rfl|rfl|rfl
  · rfl
  · rfl
  · rfl
  · rfl
  · rfl
  · by_cases hc : environGet env "GOOGLE_APPLICATION_CREDENTIALS" "" = "" <;>
    by_cases he : env.pathExists (osPathJoin ["tests", "system.py"]) = true <;>
    by_cases hd : env.pathExists (osPathJoin ["tests", "system"]) = true <;>
    simp [system, installsBeforeRuns, isRunStep, isInstallStep, hc, he, hd, LOCAL_DEPS]
  · by_cases hc : environGet env "GOOGLE_APPLICATION_CREDENTIALS" "" = "" <;>
    simp [snippets, installsBeforeRuns, isRunStep, isInstallStep, hc, LOCAL_DEPS]
  · rfl
  · rfl

/-- Witness for C5 at the docs session and a concrete environment. -/
theorem c5_witness :
    installsBeforeRuns (docs envUnset) = true :=
  c5_installs_before_runs
    { name := "docs", python := [DEFAULT_PYTHON_VERSION], plan := docs }
    (by simp [sessions]) envUnset

/-- Claim C6: the fixed relative paths each session references.  The
eight path equations identify the joined paths with their literal forms;
the remaining parts characterise every py.test invocation of the unit,
system and snippets sessions (target paths tests/unit, tests/system.py
and tests/system, docs/snippets.py and docs/snippets_table.py
respectively, plus the pass-through posargs), and show that the docs and
docfx sessions remove exactly docs/_build and direct all sphinx-build
output under docs/_build. -/
theorem c6_fixed_paths (env : Env) :
    osPathJoin ["tests", "unit"] = "tests/unit"
    ∧ osPathJoin ["tests", "system.py"] = "tests/system.py"
    ∧ osPathJoin ["tests", "system"] = "tests/system"
    ∧ osPathJoin ["docs", "snippets.py"] = "docs/snippets.py"
    ∧ osPathJoin ["docs", "snippets_table.py"] = "docs/snippets_table.py"
    ∧ osPathJoin ["docs", "_build"] = "docs/_build"
    ∧ osPathJoin ["docs", "_build", "doctrees", ""] = "docs/_build/doctrees/"
    ∧ osPathJoin ["docs", "_build", "html", ""] = "docs/_build/html/"
    ∧ runSteps (unit env) =
      [["py.test", "--quiet", "--cov=google.cloud", "--cov=tests.unit",
        "--cov-append", "--cov-config=.coveragerc", "--cov-report=",
        "--cov-fail-under=0", osPathJoin ["tests", "unit"]] ++ env.posargs]
    ∧ (∀ args ∈ runSteps (system env),
        args = ["py.test", "--quiet", osPathJoin ["tests", "system.py"]] ++ env.posargs
        ∨ args = ["py.test", "--quiet", osPathJoin ["tests", "system"]] ++ env.posargs)
    ∧ (∀ args ∈ runSteps (snippets env),
        args = ["py.test", "--quiet", osPathJoin ["docs", "snippets.py"]] ++ env.posargs
        ∨ args = ["py.test", "--quiet", osPathJoin ["docs", "snippets_table.py"]] ++ env.posargs)
    ∧ rmtreePaths (docs env) = [osPathJoin ["docs", "_build"]]
    ∧ rmtreePaths (docfx env) = [osPathJoin ["docs", "_build"]]
    ∧ runSteps (docs env) =
      [["sphinx-build", "-W", "-T", "-N", "-b", "html",
        "-d", osPathJoin ["docs", "_build", "doctrees", ""],
        osPathJoin ["docs", ""],
        osPathJoin ["docs", "_build", "html", ""]]]
    ∧ runSteps (docfx env) =
      [["sphinx-build", "-T", "-N", "-D",
        "extensions=sphinx.ext.autodoc," ++
        "sphinx.ext.autosummary," ++
        "docfx_yaml.extension," ++
        "sphinx.ext.intersphinx," ++
        "sphinx.ext.coverage," ++
        "sphinx.ext.napoleon," ++
        "sphinx.ext.todo," ++
        "sphinx.ext.viewcode," ++
        "recommonmark",
        "-b", "html",
        "-d", osPathJoin ["docs", "_build", "doctrees", ""],
        osPathJoin ["docs", ""],
        osPathJoin ["docs", "_build", "html", ""]]] := by
  refine ⟨rfl, rfl, rfl, rfl, rfl, rfl, rfl, rfl, rfl, ?_, ?_, rfl, rfl, rfl, rfl⟩
  · intro args h
    by_cases he : env.pathExists (osPathJoin ["tests", "system.py"]) = true <;>
    by_cases hd : env.pathExists (osPathJoin ["tests", "system"]) = true <;>
    by_cases hc : environGet env "GOOGLE_APPLICATION_CREDENTIALS" "" = "" <;>
    simp [system, runSteps, he, hd, hc, LOCAL_DEPS] at h <;>
    tauto
  · intro args h
    by_cases hc : environGet env "GOOGLE_APPLICATION_CREDENTIALS" "" = "" <;>
    simp [snippets, runSteps, hc, LOCAL_DEPS] at h <;>
    tauto

/-- Witness for C6: in a concrete environment where both system test
paths exist, the py.test invocation on tests/system.py is among the run
steps of the system session and is one of the two permitted argument
lists. -/
theorem c6_witness :
    (["py.test", "--quiet", osPathJoin ["tests", "system.py"]] ++ envAllFiles.posargs)
      ∈ runSteps (system envAllFiles)
    ∧ ((["py.test", "--quiet", osPathJoin ["tests", "system.py"]] ++ envAllFiles.posargs)
        = ["py.test", "--quiet", osPathJoin ["tests", "system.py"]] ++ envAllFiles.posargs
      ∨ (["py.test", "--quiet", osPathJoin ["tests", "system.py"]] ++ envAllFiles.posargs)
        = ["py.test", "--quiet", osPathJoin ["tests", "system"]] ++ envAllFiles.posargs) := by
  refine ⟨by decide, ?_⟩
  exact (c6_fixed_paths envAllFiles).2.2.2.2.2.2.2.2.2.1 _ (by decide)

/-- Claim C7: the sessions registered by a nox.session decorator are
exactly lint, blacken, lint_setup_py, unit, cover, system, snippets,
docs and docfx, in file order, and the helper default is not among
them. -/
theorem c7_registered_sessions :
    sessions.map Session.name =
      ["lint", "blacken", "lint_setup_py", "unit", "cover",
       "system", "snippets", "docs", "docfx"]
    ∧ "default" ∉ sessions.map Session.name := by
  constructor
  · rfl
  · decide

/-- Claim C8: with the credentials variable set and every command
succeeding, the py.test invocations performed by the system session are
exactly: one on tests/system.py when that file exists, followed by one
on tests/system when that directory exists, each absent otherwise; in
particular when both exist there are exactly two, file first. -/
theorem c8_system_pytest_targets (env : Env)
    (hc : environGet env "GOOGLE_APPLICATION_CREDENTIALS" "" ≠ "")
    (hall : ∀ a : Action, env.exitCode a = 0) :
    runsOf (exec env (system env)).2 = runSteps (system env)
    ∧ runSteps (system env) =
      (if env.pathExists (osPathJoin ["tests", "system.py"]) then
        [["py.test", "--quiet", osPathJoin ["tests", "system.py"]] ++ env.posargs] else [])
      ++ (if env.pathExists (osPathJoin ["tests", "system"]) then
        [["py.test", "--quiet", osPathJoin ["tests", "system"]] ++ env.posargs] else []) := by
  by_cases he : env.pathExists (osPathJoin ["tests", "system.py"]) = true <;>
  by_cases hd : env.pathExists (osPathJoin ["tests", "system"]) = true <;>
  constructor <;>
  simp [system, runSteps, runsOf, exec, actFails, hall, hc, he, hd, LOCAL_DEPS]

/-- Witness for C8: with credentials set, both paths present and all
commands succeeding, the session performs exactly the two py.test
invocations, file first, directory second. -/
theorem c8_witness :
    environGet envAllFiles "GOOGLE_APPLICATION_CREDENTIALS" "" ≠ ""
    ∧ runsOf (exec envAllFiles (system envAllFiles)).2 =
        [["py.test", "--quiet", "tests/system.py"],
         ["py.test", "--quiet", "tests/system"]] := by
  refine ⟨by decide, ?_⟩
  have h := c8_system_pytest_targets envAllFiles (by decide) (fun a => rfl)
  rw [h.1, h.2]
  decide

/-- Claim C9: in the docs and docfx sessions, whenever sphinx-build is
actually performed, the trace is the full body: both installs, then the
removal of the docs/_build tree, and only then the sphinx-build
invocation, so every documentation build starts from an empty output
directory.  Moreover no run of either session can end with a failure
blamed on the rmtree action, because errors are ignored there: a missing
docs/_build directory is not a failure. -/
theorem c9_rmtree_before_sphinx (env : Env) :
    (Action.run
        ["sphinx-build", "-W", "-T", "-N", "-b", "html",
         "-d", osPathJoin ["docs", "_build", "doctrees", ""],
         osPathJoin ["docs", ""],
         osPathJoin ["docs", "_build", "html", ""]]
       ∈ (exec env (docs env)).2 →
      (exec env (docs env)).2 =
        [Action.install ["-e", "."],
         Action.install ["sphinx", "alabaster", "recommonmark"],
         Action.rmtree (osPathJoin ["docs", "_build"]),
         Action.run
           ["sphinx-build", "-W", "-T", "-N", "-b", "html",
            "-d", osPathJoin ["docs", "_build", "doctrees", ""],
            osPathJoin ["docs", ""],
            osPathJoin ["docs", "_build", "html", ""]]])
    ∧ (Action.run
        ["sphinx-build", "-T", "-N", "-D",
         "extensions=sphinx.ext.autodoc," ++
         "sphinx.ext.autosummary," ++
         "docfx_yaml.extension," ++
         "sphinx.ext.intersphinx," ++
         "sphinx.ext.coverage," ++
         "sphinx.ext.napoleon," ++
         "sphinx.ext.todo," ++
         "sphinx.ext.viewcode," ++
         "recommonmark",
         "-b", "html",
         "-d", osPathJoin ["docs", "_build", "doctrees", ""],
         osPathJoin ["docs", ""],
         osPathJoin ["docs", "_build", "html", ""]]
       ∈ (exec env (docfx env)).2 →
      (exec env (docfx env)).2 =
        [Action.install ["-e", "."],
         Action.install ["sphinx", "alabaster", "recommonmark", "sphinx-docfx-yaml"],
         Action.rmtree (osPathJoin ["docs", "_build"]),
         Action.run
           ["sphinx-build", "-T", "-N", "-D",
            "extensions=sphinx.ext.autodoc," ++
            "sphinx.ext.autosummary," ++
            "docfx_yaml.extension," ++
            "sphinx.ext.intersphinx," ++
            "sphinx.ext.coverage," ++
            "sphinx.ext.napoleon," ++
            "sphinx.ext.todo," ++
            "sphinx.ext.viewcode," ++
            "recommonmark",
            "-b", "html",
            "-d", osPathJoin ["docs", "_build", "doctrees", ""],
            osPathJoin ["docs", ""],
            osPathJoin ["docs", "_build", "html", ""]]])
    ∧ (∀ p, (exec env (docs env)).1 ≠ Outcome.failed (Action.rmtree p))
    ∧ (∀ p, (exec env (docfx env)).1 ≠ Outcome.failed (Action.rmtree p)) := by
  refine ⟨?_, ?_, fun p => exec_ne_failed_rmtree env _ p,
    fun p => exec_ne_failed_rmtree env _ p⟩
  · intro hmem
    by_cases h1 : env.exitCode (Action.install ["-e", "."]) = 0
    · by_cases h2 : env.exitCode (Action.install ["sphinx", "alabaster", "recommonmark"]) = 0
      · by_cases h3 : env.exitCode (Action.run
          ["sphinx-build", "-W", "-T", "-N", "-b", "html",
           "-d", osPathJoin ["docs", "_build", "doctrees", ""],
           osPathJoin ["docs", ""],
           osPathJoin ["docs", "_build", "html", ""]]) = 0 <;>
        simp [docs, exec, actFails, h1, h2, h3]
      · simp [docs, exec, actFails, h1, h2] at hmem
    · simp [docs, exec, actFails, h1] at hmem
  · intro hmem
    by_cases h1 : env.exitCode (Action.install ["-e", "."]) = 0
    · by_cases h2 : env.exitCode (Action.install ["sphinx", "alabaster", "recommonmark", "sphinx-docfx-yaml"]) = 0
      · by_cases h3 : env.exitCode (Action.run
          ["sphinx-build", "-T", "-N", "-D",
           "extensions=sphinx.ext.autodoc,sphinx.ext.autosummary,docfx_yaml.extension,sphinx.ext.intersphinx,sphinx.ext.coverage,sphinx.ext.napoleon,sphinx.ext.todo,sphinx.ext.viewcode,recommonmark",
           "-b", "html",
           "-d", osPathJoin ["docs", "_build", "doctrees", ""],
           osPathJoin ["docs", ""],
           osPathJoin ["docs", "_build", "html", ""]]) = 0 <;>
        simp [docfx, exec, actFails, h1, h2, h3]
      · simp [docfx, exec, actFails, h1, h2] at hmem
    · simp [docfx, exec, actFails, h1] at hmem

/-- Witness for C9: in a concrete environment where every command
succeeds, the docs session trace is the full body, with the rmtree of
docs/_build third and the sphinx-build invocation last. -/
theorem c9_witness :
    (exec envAllFiles (docs envAllFiles)).2 =
      [Action.install ["-e", "."],
       Action.install ["sphinx", "alabaster", "recommonmark"],
       Action.rmtree "docs/_build",
       Action.run
         ["sphinx-build", "-W", "-T", "-N", "-b", "html",
          "-d", "docs/_build/doctrees/", "docs/", "docs/_build/html/"]] :=
  (c9_rmtree_before_sphinx envAllFiles).1 (by decide)

/-- Claim C10: an environment in which the credentials variable is set
to the empty string and one in which it is entirely unset are
indistinguishable through the system and snippets sessions: whatever the
rest of the two environments, both runs of each session produce the same
result (both are skipped before performing any action). -/
theorem c10_empty_creds_equals_unset (env1 env2 : Env)
    (h1 : env1.environ "GOOGLE_APPLICATION_CREDENTIALS" = some "")
    (h2 : env2.environ "GOOGLE_APPLICATION_CREDENTIALS" = none) :
    exec env1 (system env1) = exec env2 (system env2)
    ∧ exec env1 (snippets env1) = exec env2 (snippets env2) := by
  have g1 : environGet env1 "GOOGLE_APPLICATION_CREDENTIALS" "" = "" := by
    simp [environGet, h1]
  have g2 : environGet env2 "GOOGLE_APPLICATION_CREDENTIALS" "" = "" := by
    simp [environGet, h2]
  constructor
  · simp [system, g1, g2, exec]
  · simp [snippets, g1, g2, exec]

/-- Witness for C10 at two concrete environments, one with the variable
set to the empty string and one with it unset. -/
theorem c10_witness :
    envEmptyCreds.environ "GOOGLE_APPLICATION_CREDENTIALS" = some ""
    ∧ envUnset.environ "GOOGLE_APPLICATION_CREDENTIALS" = none
    ∧ (exec envEmptyCreds (system envEmptyCreds) = exec envUnset (system envUnset)
      ∧ exec envEmptyCreds (snippets envEmptyCreds) = exec envUnset (snippets envUnset)) :=
  ⟨by decide, by decide,
   c10_empty_creds_equals_unset envEmptyCreds envUnset (by decide) (by decide)⟩

end Noxfile
